import Mathlib

/-!
Shallow embedding of flaskbb/auth/views.py: the login, register,
forgot_password and reset_password views together with the two cabinet
client helpers auth_cabinet_user and create_cabinet_user. External
collaborators (User.authenticate, User.verify_reset_token, the user store
lookup and the HTTP transport) are passed in as explicit parameters; the
embedding records the side effects of each flow (session start, user save,
flash messages, log records, remote calls, token issuance and delivery) as
an explicit effect trace, and models Python exceptions with a raised
constructor of the flow result.
-/

namespace FlaskBB

/-- A Python runtime value as it matters here: the remember argument handed
to login_user is a bool on the local login path and a str on the
auto-provisioning path. -/
inductive PyVal where
  | bool (b : Bool)
  | str (s : String)
deriving DecidableEq, Repr

/-- A Python exception as raised by the embedded flows. -/
inductive PyError where
  | typeError
  | valueError
  | attributeError
deriving DecidableEq, Repr

/-- A log record emitted through the application logger. -/
inductive LogEvent where
  | error (msg : String)
  | warning (msg : String)
deriving DecidableEq, Repr

/-- The JSON object body of a cabinet response: the two fields the code
reads with res.get. -/
structure JsonObj where
  status : Option String
  email : Option String
deriving DecidableEq, Repr

/-- The transport response of requests.post: HTTP status code, raw body
text, and the result of json.loads on the body (none when parsing would
raise a ValueError). -/
structure HttpResponse where
  status_code : Nat
  text : String
  parsed : Option JsonObj
deriving DecidableEq, Repr

/-- A local user record, with exactly the fields the auto-provisioning
branch of login constructs. -/
structure User where
  username : String
  email : String
  password : String
  date_joined : Nat
  primary_group_id : Nat
deriving DecidableEq, Repr

/-- The flask_login current_user proxy, restricted to the two flags the
guards of the views test. -/
structure CurrentUser where
  is_authenticated : Bool
  is_anonymous : Bool
deriving DecidableEq, Repr

/-- The login form fields the view reads, plus the result of
form.validate_on_submit. -/
structure LoginForm where
  login : String
  password : String
  remember_me : Bool
  validates : Bool
deriving DecidableEq, Repr

/-- The forgot-password form fields the view reads. -/
structure ForgotPasswordForm where
  email : String
  validates : Bool
deriving DecidableEq, Repr

/-- The reset-password form fields the view reads. -/
structure ResetPasswordForm where
  email : String
  token : String
  password : String
  validates : Bool
deriving DecidableEq, Repr

/-- The triple returned by User.verify_reset_token as (expired, invalid,
data); its computation lives outside this module and each flow takes it as
a function parameter. -/
structure VerifyResult where
  expired : Bool
  invalid : Bool
  data : Option String
deriving DecidableEq, Repr

/-- The terminal HTTP-level outcome of a view: a redirect to a named
target or a rendered template. -/
inductive Outcome where
  | redirect (target : String)
  | render (template : String)
deriving DecidableEq, Repr

/-- An observable side effect performed by a flow, in program order. -/
inductive Effect where
  | remoteAuthCall
  | remoteRegisterCall
  | log (e : LogEvent)
  | userSaved (u : User)
  | sessionStart (username : String) (remember : PyVal)
  | flash (message : String) (category : String)
  | tokenIssued (username : String)
  | resetEmailSent (username : String)
  | tokenVerified (username : String)
deriving DecidableEq, Repr

/-- The result of running a view: a normal outcome with its effect trace,
or a Python exception raised after the recorded effects. -/
inductive FlowResult where
  | ok (outcome : Outcome) (effects : List Effect)
  | raised (e : PyError) (effects : List Effect)
deriving DecidableEq, Repr

/-- The effect trace of a flow result, whether it returned or raised. -/
def FlowResult.effects : FlowResult → List Effect
  | .ok _ e => e
  | .raised _ e => e

/-- Whether an effect is a flashed user-visible message. -/
def isFlash : Effect → Bool
  | .flash _ _ => true
  | _ => false

/-- The user-visible face of a flow result: the outcome (none when the
request errored out with an exception) together with the flashed messages;
log records and remote calls are not user-visible. -/
def FlowResult.visible (r : FlowResult) : Option Outcome × List Effect :=
  match r with
  | .ok o e => (some o, e.filter isFlash)
  | .raised _ e => (none, e.filter isFlash)

/-- The two return shapes of auth_cabinet_user: its transport-failure
branch returns a bare False while the other branches return a pair. -/
inductive AuthRet where
  | bare (b : Bool)
  | pair (ok : Bool) (email : Option String)
deriving DecidableEq, Repr

/-- Python x or y for an optional string x: y when x is None or the empty
string (both falsy), otherwise x itself. -/
def pyOr (x : Option String) (y : String) : String :=
  match x with
  | none => y
  | some s => if s = "" then y else s

/-- Python truthiness of an optional string: None and the empty string are
falsy. -/
def pyTruthy : Option String → Bool
  | none => false
  | some s => s != ""

/-- auth_cabinet_user: posts the login and password to the configured
cabinet auth url; the embedding takes the transport response as input. A
non-200 status or an empty body logs an error and returns a bare False.
Otherwise the body is parsed (json.loads raises on a malformed body); a
status field differing from the literal OK logs a warning with the raw
body and returns the pair (False, None); on OK it returns (True, email)
where email is the optional email field. -/
def auth_cabinet_user (url : String) (resp : HttpResponse) :
    Except PyError (AuthRet × List LogEvent) :=
  if resp.status_code ≠ 200 ∨ resp.text = "" then
    .ok (.bare false, [.error ("requests.post to " ++ url ++ " failed")])
  else
    match resp.parsed with
    | none => .error .valueError
    | some res =>
      if res.status ≠ some "OK" then
        .ok (.pair false none, [.warning ("auth_cabinet_user: " ++ resp.text)])
      else
        .ok (.pair true res.email, [])

/-- create_cabinet_user: posts login, password and email to the configured
cabinet register url; same transport and status contract as
auth_cabinet_user, but every branch returns a plain boolean. -/
def create_cabinet_user (url : String) (resp : HttpResponse) :
    Except PyError (Bool × List LogEvent) :=
  if resp.status_code ≠ 200 ∨ resp.text = "" then
    .ok (false, [.error ("requests.post to " ++ url ++ " failed")])
  else
    match resp.parsed with
    | none => .error .valueError
    | some res =>
      if res.status ≠ some "OK" then
        .ok (false, [.warning ("create_cabinet_user: " ++ resp.text)])
      else
        .ok (true, [])

/-- The login view. Guard: an authenticated current_user is redirected to
the profile. On a validated form, the result of User.authenticate (an
external collaborator, passed as the localAuth parameter) is tested: on
local success the session starts with the remember-me checkbox as the
remember argument. Otherwise auth_cabinet_user is called and its return
value is unpacked as a pair, so a bare boolean raises a TypeError; on
remote success a local user is provisioned (email defaulting through
Python or to the sentinel unknown, group id 4, date_joined now, password
the supplied plaintext) and the session starts with the plaintext password
as the remember argument. Every remaining path flashes the generic
rejection and re-renders the login template. -/
def login (cu : CurrentUser) (form : LoginForm)
    (localAuth : Option User × Bool) (url : String) (resp : HttpResponse)
    (now : Nat) (nextArg : Option String) : FlowResult :=
  if cu.is_authenticated then
    .ok (.redirect "user.profile") []
  else if form.validates then
    match localAuth with
    | (some u, true) =>
      .ok (.redirect (nextArg.getD "forum.index"))
        [.sessionStart u.username (.bool form.remember_me)]
    | _ =>
      match auth_cabinet_user url resp with
      | .error e => .raised e [.remoteAuthCall]
      | .ok (ret, logs) =>
        let pre : List Effect := .remoteAuthCall :: logs.map .log
        match ret with
        | .bare _ => .raised .typeError pre
        | .pair ok email =>
          if ok then
            let newUser : User :=
              { username := form.login, email := pyOr email "unknown",
                password := form.password, date_joined := now,
                primary_group_id := 4 }
            .ok (.redirect (nextArg.getD "forum.index"))
              (pre ++ [.userSaved newUser,
                       .sessionStart newUser.username (.str form.password)])
          else
            .ok (.render "auth/login.html")
              (pre ++ [.flash "Wrong Username or Password." "danger"])
  else
    .ok (.render "auth/login.html") []

/-- The register view. Guard: an authenticated current_user is redirected
to the profile. On a validated form the local account is created by
form.save (the saved user is a parameter), then create_cabinet_user is
called with its result discarded, then the session starts and the success
flash is shown. -/
def register (cu : CurrentUser) (formValidates : Bool) (savedUser : User)
    (url : String) (resp : HttpResponse) : FlowResult :=
  if cu.is_authenticated then
    .ok (.redirect "user.profile") []
  else if formValidates then
    match create_cabinet_user url resp with
    | .error e => .raised e [.userSaved savedUser, .remoteRegisterCall]
    | .ok (_, logs) =>
      .ok (.redirect "user.profile")
        ([.userSaved savedUser, .remoteRegisterCall] ++ logs.map .log ++
         [.sessionStart savedUser.username (.bool false),
          .flash "Thanks for registering." "success"])
  else
    .ok (.render "auth/register.html") []

/-- The forgot_password view. Guard: a non-anonymous current_user is
redirected to the forum index. On a validated form the store is queried by
email: if a user exists a reset token is issued and handed to the delivery
channel and the info flash is shown; otherwise only the generic not-linked
flash is shown. -/
def forgot_password (cu : CurrentUser) (form : ForgotPasswordForm)
    (findByEmail : String → Option User) : FlowResult :=
  if !cu.is_anonymous then
    .ok (.redirect "forum.index") []
  else if form.validates then
    match findByEmail form.email with
    | some user =>
      .ok (.redirect "auth.forgot_password")
        [.tokenIssued user.username, .resetEmailSent user.username,
         .flash "E-Mail sent! Please check your inbox." "info"]
    | none =>
      .ok (.render "auth/forgot_password.html")
        [.flash ("You have entered a Username or E-Mail Address that is " ++
                 "not linked with your account.") "danger"]
  else
    .ok (.render "auth/forgot_password.html") []

/-- The reset_password view. Guard: a non-anonymous current_user is
redirected to the forum index. On a validated form the store is queried by
email and verify_reset_token is invoked on the result immediately, before
any none-check, so a missing user raises an AttributeError. The invalid
flag is tested first, then the expired flag, and only then the guard on
user and data admits the password update. -/
def reset_password (cu : CurrentUser) (form : ResetPasswordForm)
    (findByEmail : String → Option User)
    (verify : User → String → VerifyResult) : FlowResult :=
  if !cu.is_anonymous then
    .ok (.redirect "forum.index") []
  else if form.validates then
    match findByEmail form.email with
    | none => .raised .attributeError []
    | some user =>
      let vr := verify user form.token
      let pre : List Effect := [.tokenVerified user.username]
      if vr.invalid then
        .ok (.redirect "auth.forgot_password")
          (pre ++ [.flash "Your Password Token is invalid." "danger"])
      else if vr.expired then
        .ok (.redirect "auth.forgot_password")
          (pre ++ [.flash "Your Password Token is expired." "danger"])
      else if pyTruthy vr.data then
        .ok (.redirect "auth.login")
          (pre ++ [.userSaved { user with password := form.password },
                   .flash "Your Password has been updated." "success"])
      else
        .ok (.render "auth/reset_password.html") pre
  else
    .ok (.render "auth/reset_password.html") []

/-- A sample stored user for concrete evaluations. -/
def bob : User := ⟨"bob", "bob@x.com", "pw0", 3, 4⟩

/-- A sample store in which only the email of bob resolves. -/
def findBob : String → Option User :=
  fun e => if e = "bob@x.com" then some bob else none

/-- A sample empty store. -/
def findNone : String → Option User := fun _ => none

/-- A sample verifier reporting a token both expired and invalid. -/
def verifyBothFlags : User → String → VerifyResult :=
  fun _ _ => ⟨true, true, some "d"⟩

/-- A sample verifier reporting a valid, unexpired token with a payload. -/
def verifyGood : User → String → VerifyResult :=
  fun _ _ => ⟨false, false, some "d"⟩

/-- An anonymous, unauthenticated current_user. -/
def cuAnon : CurrentUser := ⟨false, true⟩

/-- An authenticated, non-anonymous current_user. -/
def cuAuth : CurrentUser := ⟨true, false⟩

theorem auth_cabinet_user_transport_fail (url : String) (resp : HttpResponse)
    (h : resp.status_code ≠ 200 ∨ resp.text = "") :
    auth_cabinet_user url resp
      = .ok (.bare false, [.error ("requests.post to " ++ url ++ " failed")]) := by
  simp [auth_cabinet_user, h]

theorem auth_cabinet_user_ok (url : String) (resp : HttpResponse) (obj : JsonObj)
    (h200 : resp.status_code = 200) (hne : resp.text ≠ "")
    (hp : resp.parsed = some obj) (hst : obj.status = some "OK") :
    auth_cabinet_user url resp = .ok (.pair true obj.email, []) := by
  simp [auth_cabinet_user, h200, hne, hp, hst]

theorem auth_cabinet_user_rejected (url : String) (resp : HttpResponse) (obj : JsonObj)
    (h200 : resp.status_code = 200) (hne : resp.text ≠ "")
    (hp : resp.parsed = some obj) (hst : obj.status ≠ some "OK") :
    auth_cabinet_user url resp
      = .ok (.pair false none, [.warning ("auth_cabinet_user: " ++ resp.text)]) := by
  simp [auth_cabinet_user, h200, hne, hp, hst]

/-- Claim C1 (code evidence): on a non-2xx transport response, and likewise
on a 2xx response with an empty body, auth_cabinet_user logs the error but
returns a bare False instead of a pair; the tuple unpacking at its call site
in login then raises a TypeError, so the request errors out instead of
falling through to the ordinary generic authentication failure that the
claim describes. -/
theorem C1_transport_failure_raises_type_error :
    login ⟨false, true⟩ ⟨"alice", "pw", false, true⟩ (none, false) "cab"
        ⟨500, "", none⟩ 0 none
      = .raised .typeError
          [.remoteAuthCall, .log (.error "requests.post to cab failed")]
    ∧ login ⟨false, true⟩ ⟨"alice", "pw", false, true⟩ (none, false) "cab"
        ⟨200, "", none⟩ 0 none
      = .raised .typeError
          [.remoteAuthCall, .log (.error "requests.post to cab failed")] := by
  constructor <;> rfl

/-- Claim C2: on a well-formed cabinet response (status 200, non-empty and
parseable body) auth_cabinet_user returns a pair whose ok component is true
exactly when the status field equals the literal OK; on success the email
field is passed through unchanged (none when absent), and on any other
status the result is (false, none) with a warning log carrying the raw
body. -/
theorem C2_wellformed_status_decides_ok (url : String) (resp : HttpResponse)
    (obj : JsonObj) (h200 : resp.status_code = 200) (hne : resp.text ≠ "")
    (hp : resp.parsed = some obj) :
    ∃ ok email logs,
      auth_cabinet_user url resp = .ok (.pair ok email, logs) ∧
      (ok = true ↔ obj.status = some "OK") ∧
      (ok = true → email = obj.email ∧ logs = []) ∧
      (ok = false →
        email = none ∧
        logs = [.warning ("auth_cabinet_user: " ++ resp.text)]) := by
  by_cases hst : obj.status = some "OK"
  · exact ⟨true, obj.email, [],
      auth_cabinet_user_ok url resp obj h200 hne hp hst,
      by simp [hst], fun _ => ⟨rfl, rfl⟩, by simp⟩
  · exact ⟨false, none, [.warning ("auth_cabinet_user: " ++ resp.text)],
      auth_cabinet_user_rejected url resp obj h200 hne hp hst,
      by simp [hst], by simp, fun _ => ⟨rfl, rfl⟩⟩

theorem C2_witness :
    (200 : Nat) = 200 ∧ ("body" : String) ≠ "" ∧
    (∃ ok email logs,
      auth_cabinet_user "cab" ⟨200, "body", some ⟨some "OK", some "a@b"⟩⟩
        = .ok (.pair ok email, logs) ∧
      (ok = true ↔ (some "OK" : Option String) = some "OK") ∧
      (ok = true → email = some "a@b" ∧ logs = []) ∧
      (ok = false →
        email = none ∧ logs = [.warning ("auth_cabinet_user: " ++ "body")])) :=
  ⟨rfl, by decide,
   C2_wellformed_status_decides_ok "cab" ⟨200, "body", some ⟨some "OK", some "a@b"⟩⟩
     ⟨some "OK", some "a@b"⟩ rfl (by decide) rfl⟩

/-- Claim C3 (counterexample): the remote backend answers OK with an email
field that is present but empty; the claim as stated requires the
provisioned record to carry that remote-returned email, yet the code stores
the sentinel unknown, because the Python or-default also replaces a present
empty string. -/
theorem C3_empty_email_counterexample :
    login ⟨false, true⟩ ⟨"nina", "p1", false, true⟩ (none, false) "cab"
        ⟨200, "body", some ⟨some "OK", some ""⟩⟩ 7 none
      = .ok (.redirect "forum.index")
          [.remoteAuthCall,
           .userSaved ⟨"nina", "unknown", "p1", 7, 4⟩,
           .sessionStart "nina" (.str "p1")]
    ∧ ("unknown" : String) ≠ "" := by
  exact ⟨rfl, by decide⟩

/-- Claim C3 (amended): when local verification fails and the cabinet
answers OK, the record created by auto-provisioning has username equal to
the supplied login, email equal to the remote-returned email when it is
present and non-empty and the sentinel unknown otherwise (when the remote
email is absent or empty), password equal to the same supplied password,
group equal to the fixed default role identifier 4, and timestamp equal to
the current time; the session then starts for that user. -/
theorem C3_autoprovisioned_record (cu : CurrentUser) (form : LoginForm)
    (localAuth : Option User × Bool) (url : String) (resp : HttpResponse)
    (obj : JsonObj) (now : Nat) (nextArg : Option String)
    (hcu : cu.is_authenticated = false) (hv : form.validates = true)
    (hloc : localAuth.1 = none ∨ localAuth.2 = false)
    (h200 : resp.status_code = 200) (hne : resp.text ≠ "")
    (hp : resp.parsed = some obj) (hst : obj.status = some "OK") :
    login cu form localAuth url resp now nextArg
      = .ok (.redirect (nextArg.getD "forum.index"))
          [.remoteAuthCall,
           .userSaved { username := form.login, email := pyOr obj.email "unknown",
                        password := form.password, date_joined := now,
                        primary_group_id := 4 },
           .sessionStart form.login (.str form.password)] := by
  have hr := auth_cabinet_user_ok url resp obj h200 hne hp hst
  obtain ⟨ou, bauth⟩ := localAuth
  dsimp only at hloc
  rcases hloc with h | h
  · subst h
    cases bauth <;> simp [login, hcu, hv, hr]
  · subst h
    cases ou <;> simp [login, hcu, hv, hr]

theorem C3_witness :
    ((none : Option User), false).1 = none ∧
    login cuAnon ⟨"nina", "p1", false, true⟩ (none, false) "cab"
        ⟨200, "body", some ⟨some "OK", some "nina@x.com"⟩⟩ 7 none
      = .ok (.redirect "forum.index")
          [.remoteAuthCall,
           .userSaved ⟨"nina", "nina@x.com", "p1", 7, 4⟩,
           .sessionStart "nina" (.str "p1")] :=
  ⟨rfl,
   C3_autoprovisioned_record cuAnon ⟨"nina", "p1", false, true⟩ (none, false) "cab"
     ⟨200, "body", some ⟨some "OK", some "nina@x.com"⟩⟩
     ⟨some "OK", some "nina@x.com"⟩ 7 none rfl rfl (Or.inl rfl) rfl
     (by decide) rfl rfl⟩

/-- Claim C5: for a pair rejected by the local verifier (in any shape of
its answer) and rejected by the cabinet (a well-formed response whose
status is not the literal OK), the login flow ends by re-rendering the
login template with the single generic rejection flash; the user-visible
outcome is one constant, so local and remote rejection are
indistinguishable to an observer of the outcome. -/
theorem C5_generic_rejection (cu : CurrentUser) (form : LoginForm)
    (localAuth : Option User × Bool) (url : String) (resp : HttpResponse)
    (obj : JsonObj) (now : Nat) (nextArg : Option String)
    (hcu : cu.is_authenticated = false) (hv : form.validates = true)
    (hloc : localAuth.1 = none ∨ localAuth.2 = false)
    (h200 : resp.status_code = 200) (hne : resp.text ≠ "")
    (hp : resp.parsed = some obj) (hst : obj.status ≠ some "OK") :
    login cu form localAuth url resp now nextArg
      = .ok (.render "auth/login.html")
          [.remoteAuthCall,
           .log (.warning ("auth_cabinet_user: " ++ resp.text)),
           .flash "Wrong Username or Password." "danger"]
    ∧ (login cu form localAuth url resp now nextArg).visible
      = (some (.render "auth/login.html"),
         [.flash "Wrong Username or Password." "danger"]) := by
  have hr := auth_cabinet_user_rejected url resp obj h200 hne hp hst
  have hmain : login cu form localAuth url resp now nextArg
      = .ok (.render "auth/login.html")
          [.remoteAuthCall,
           .log (.warning ("auth_cabinet_user: " ++ resp.text)),
           .flash "Wrong Username or Password." "danger"] := by
    obtain ⟨ou, bauth⟩ := localAuth
    dsimp only at hloc
    rcases hloc with h | h
    · subst h
      cases bauth <;> simp [login, hcu, hv, hr]
    · subst h
      cases ou <;> simp [login, hcu, hv, hr]
  exact ⟨hmain, by rw [hmain]; simp [FlowResult.visible, isFlash]⟩

theorem C5_witness :
    login cuAnon ⟨"dave", "pw2", false, true⟩ (none, false) "cab"
        ⟨200, "body", some ⟨some "FAIL", none⟩⟩ 0 none
      = .ok (.render "auth/login.html")
          [.remoteAuthCall,
           .log (.warning ("auth_cabinet_user: " ++ "body")),
           .flash "Wrong Username or Password." "danger"]
    ∧ (login cuAnon ⟨"dave", "pw2", false, true⟩ (none, false) "cab"
        ⟨200, "body", some ⟨some "FAIL", none⟩⟩ 0 none).visible
      = (some (.render "auth/login.html"),
         [.flash "Wrong Username or Password." "danger"]) :=
  C5_generic_rejection cuAnon ⟨"dave", "pw2", false, true⟩ (none, false) "cab"
    ⟨200, "body", some ⟨some "FAIL", none⟩⟩ ⟨some "FAIL", none⟩ 0 none
    rfl rfl (Or.inl rfl) rfl (by decide) rfl (by decide)

theorem filter_isFlash_map_log (l : List LogEvent) :
    (l.map Effect.log).filter isFlash = [] := by
  induction l with
  | nil => rfl
  | cons a t ih => simp [List.filter, isFlash, ih]

/-- Claim C4: once the local account is created, any mirror call that
returns (with either boolean and whatever log records) leaves the outcome
unchanged: the local record is saved, the session starts, and for any two
such mirror responses the redirect and the flashed messages are the same,
so the user-visible outcome is identical. -/
theorem C4_mirror_best_effort (cu : CurrentUser) (u : User) (url : String)
    (r1 r2 : HttpResponse) (b1 b2 : Bool) (l1 l2 : List LogEvent)
    (hcu : cu.is_authenticated = false)
    (h1 : create_cabinet_user url r1 = .ok (b1, l1))
    (h2 : create_cabinet_user url r2 = .ok (b2, l2)) :
    register cu true u url r1
      = .ok (.redirect "user.profile")
          ([.userSaved u, .remoteRegisterCall] ++ l1.map .log ++
           [.sessionStart u.username (.bool false),
            .flash "Thanks for registering." "success"])
    ∧ register cu true u url r2
      = .ok (.redirect "user.profile")
          ([.userSaved u, .remoteRegisterCall] ++ l2.map .log ++
           [.sessionStart u.username (.bool false),
            .flash "Thanks for registering." "success"])
    ∧ (register cu true u url r1).visible = (register cu true u url r2).visible := by
  have e1 : register cu true u url r1
      = .ok (.redirect "user.profile")
          ([.userSaved u, .remoteRegisterCall] ++ l1.map .log ++
           [.sessionStart u.username (.bool false),
            .flash "Thanks for registering." "success"]) := by
    simp [register, hcu, h1]
  have e2 : register cu true u url r2
      = .ok (.redirect "user.profile")
          ([.userSaved u, .remoteRegisterCall] ++ l2.map .log ++
           [.sessionStart u.username (.bool false),
            .flash "Thanks for registering." "success"]) := by
    simp [register, hcu, h2]
  refine ⟨e1, e2, ?_⟩
  rw [e1, e2]
  simp [FlowResult.visible, List.filter_append, filter_isFlash_map_log, isFlash]

theorem C4_witness :
    create_cabinet_user "reg" ⟨200, "okbody", some ⟨some "OK", none⟩⟩
      = .ok (true, [])
    ∧ create_cabinet_user "reg" ⟨200, "failbody", some ⟨some "FAIL", none⟩⟩
      = .ok (false, [.warning ("create_cabinet_user: " ++ "failbody")])
    ∧ (register cuAnon true bob "reg" ⟨200, "okbody", some ⟨some "OK", none⟩⟩
        = .ok (.redirect "user.profile")
            ([.userSaved bob, .remoteRegisterCall] ++
             ([] : List LogEvent).map .log ++
             [.sessionStart "bob" (.bool false),
              .flash "Thanks for registering." "success"])
      ∧ register cuAnon true bob "reg" ⟨200, "failbody", some ⟨some "FAIL", none⟩⟩
        = .ok (.redirect "user.profile")
            ([.userSaved bob, .remoteRegisterCall] ++
             [LogEvent.warning ("create_cabinet_user: " ++ "failbody")].map .log ++
             [.sessionStart "bob" (.bool false),
              .flash "Thanks for registering." "success"])
      ∧ (register cuAnon true bob "reg"
           ⟨200, "okbody", some ⟨some "OK", none⟩⟩).visible
        = (register cuAnon true bob "reg"
           ⟨200, "failbody", some ⟨some "FAIL", none⟩⟩).visible) :=
  ⟨rfl, rfl,
   C4_mirror_best_effort cuAnon bob "reg"
     ⟨200, "okbody", some ⟨some "OK", none⟩⟩
     ⟨200, "failbody", some ⟨some "FAIL", none⟩⟩
     true false [] [.warning ("create_cabinet_user: " ++ "failbody")]
     rfl rfl rfl⟩

/-- Claim C6: in the reset-password flow, when the lookup finds a user, an
invalid verification result is branched on first, so the invalid feedback
is shown regardless of the expired flag; and a password update (a saved
user record in the effect trace) can occur only when the verification
result has invalid = false and expired = false. -/
theorem C6_invalid_precedence_and_update_guard (cu : CurrentUser)
    (form : ResetPasswordForm) (findByEmail : String → Option User)
    (verify : User → String → VerifyResult) (user : User)
    (hcu : cu.is_anonymous = true) (hv : form.validates = true)
    (hfind : findByEmail form.email = some user) :
    ((verify user form.token).invalid = true →
      reset_password cu form findByEmail verify
        = .ok (.redirect "auth.forgot_password")
            [.tokenVerified user.username,
             .flash "Your Password Token is invalid." "danger"])
    ∧ (∀ u' : User,
        Effect.userSaved u' ∈ (reset_password cu form findByEmail verify).effects →
        (verify user form.token).invalid = false ∧
        (verify user form.token).expired = false) := by
  constructor
  · intro hinv
    simp [reset_password, hcu, hv, hfind, hinv]
  · intro u' hmem
    by_cases hinv : (verify user form.token).invalid = true
    · simp [reset_password, hcu, hv, hfind, hinv, FlowResult.effects] at hmem
    · by_cases hexp : (verify user form.token).expired = true
      · simp [reset_password, hcu, hv, hfind, hinv, hexp, FlowResult.effects] at hmem
      · exact ⟨by simpa using hinv, by simpa using hexp⟩

theorem C6_witness :
    findBob "bob@x.com" = some bob ∧
    (verifyBothFlags bob "tok").invalid = true ∧
    (verifyBothFlags bob "tok").expired = true ∧
    reset_password cuAnon ⟨"bob@x.com", "tok", "npw", true⟩ findBob verifyBothFlags
      = .ok (.redirect "auth.forgot_password")
          [.tokenVerified "bob", .flash "Your Password Token is invalid." "danger"] :=
  ⟨rfl, rfl, rfl,
   (C6_invalid_precedence_and_update_guard cuAnon ⟨"bob@x.com", "tok", "npw", true⟩
     findBob verifyBothFlags bob rfl rfl rfl).1 rfl⟩

/-- Claim C7: in the forgot-password flow with a validated form, an email
matching no account produces exactly the generic not-linked flash and
nothing else (in particular no token issuance and no delivery), while an
email matching an account produces exactly a token issuance, its handoff to
the delivery channel, and the info flash. -/
theorem C7_token_only_for_known_email (cu : CurrentUser)
    (form : ForgotPasswordForm) (findByEmail : String → Option User)
    (hcu : cu.is_anonymous = true) (hv : form.validates = true) :
    (findByEmail form.email = none →
      forgot_password cu form findByEmail
        = .ok (.render "auth/forgot_password.html")
            [.flash ("You have entered a Username or E-Mail Address that is " ++
                     "not linked with your account.") "danger"])
    ∧ (∀ user : User, findByEmail form.email = some user →
        forgot_password cu form findByEmail
          = .ok (.redirect "auth.forgot_password")
              [.tokenIssued user.username, .resetEmailSent user.username,
               .flash "E-Mail sent! Please check your inbox." "info"]) := by
  constructor
  · intro hnone
    simp [forgot_password, hcu, hv, hnone]
  · intro user hsome
    simp [forgot_password, hcu, hv, hsome]

theorem C7_witness :
    findNone "a@b" = none ∧ findBob "bob@x.com" = some bob ∧
    forgot_password cuAnon ⟨"a@b", true⟩ findNone
      = .ok (.render "auth/forgot_password.html")
          [.flash ("You have entered a Username or E-Mail Address that is " ++
                   "not linked with your account.") "danger"]
    ∧ forgot_password cuAnon ⟨"bob@x.com", true⟩ findBob
      = .ok (.redirect "auth.forgot_password")
          [.tokenIssued "bob", .resetEmailSent "bob",
           .flash "E-Mail sent! Please check your inbox." "info"] :=
  ⟨rfl, rfl,
   (C7_token_only_for_known_email cuAnon ⟨"a@b", true⟩ findNone rfl rfl).1 rfl,
   (C7_token_only_for_known_email cuAnon ⟨"bob@x.com", true⟩ findBob rfl rfl).2 bob rfl⟩

/-- Claim C8: the reset-password flow calls verify_reset_token on the
result of the email lookup before any none-check, so a validated
submission whose email matches no account raises an AttributeError with an
empty effect trace: no flash is shown, no verification effect is recorded,
and the later guard on user and data is never reached, hence it does not
protect the verification step. -/
theorem C8_verify_called_before_user_check (cu : CurrentUser)
    (form : ResetPasswordForm) (findByEmail : String → Option User)
    (verify : User → String → VerifyResult)
    (hcu : cu.is_anonymous = true) (hv : form.validates = true)
    (hnone : findByEmail form.email = none) :
    reset_password cu form findByEmail verify = .raised .attributeError [] := by
  simp [reset_password, hcu, hv, hnone]

theorem C8_witness :
    findNone "ghost@x.com" = none ∧
    reset_password cuAnon ⟨"ghost@x.com", "tok", "npw", true⟩ findNone verifyGood
      = .raised .attributeError [] :=
  ⟨rfl,
   C8_verify_called_before_user_check cuAnon ⟨"ghost@x.com", "tok", "npw", true⟩
     findNone verifyGood rfl rfl rfl⟩

/-- Claim C9: a login that succeeds locally starts the session with the
remember-me checkbox as the remember argument (a boolean), while a login
that succeeds through the cabinet and auto-provisioning starts the session
with the supplied plaintext password as the remember argument (a string);
a string value and a boolean value are never equal, so the two success
paths always pass different remember arguments. -/
theorem C9_remember_argument_differs (cu : CurrentUser) (form : LoginForm)
    (u : User) (url : String) (resp : HttpResponse) (obj : JsonObj)
    (now : Nat) (nextArg : Option String)
    (hcu : cu.is_authenticated = false) (hv : form.validates = true)
    (h200 : resp.status_code = 200) (hne : resp.text ≠ "")
    (hp : resp.parsed = some obj) (hst : obj.status = some "OK") :
    login cu form (some u, true) url resp now nextArg
      = .ok (.redirect (nextArg.getD "forum.index"))
          [.sessionStart u.username (.bool form.remember_me)]
    ∧ login cu form (none, false) url resp now nextArg
      = .ok (.redirect (nextArg.getD "forum.index"))
          [.remoteAuthCall,
           .userSaved { username := form.login, email := pyOr obj.email "unknown",
                        password := form.password, date_joined := now,
                        primary_group_id := 4 },
           .sessionStart form.login (.str form.password)]
    ∧ (∀ (s : String) (b : Bool), PyVal.str s ≠ PyVal.bool b) := by
  refine ⟨?_, ?_, ?_⟩
  · simp [login, hcu, hv]
  · exact C3_autoprovisioned_record cu form (none, false) url resp obj now nextArg
      hcu hv (Or.inl rfl) h200 hne hp hst
  · intro s b h
    cases h

theorem C9_witness :
    login cuAnon ⟨"carl", "pw1", true, true⟩ (some bob, true) "cab"
        ⟨200, "body", some ⟨some "OK", none⟩⟩ 5 none
      = .ok (.redirect "forum.index") [.sessionStart "bob" (.bool true)]
    ∧ login cuAnon ⟨"carl", "pw1", true, true⟩ (none, false) "cab"
        ⟨200, "body", some ⟨some "OK", none⟩⟩ 5 none
      = .ok (.redirect "forum.index")
          [.remoteAuthCall,
           .userSaved ⟨"carl", "unknown", "pw1", 5, 4⟩,
           .sessionStart "carl" (.str "pw1")]
    ∧ PyVal.str "pw1" ≠ PyVal.bool true :=
  ⟨(C9_remember_argument_differs cuAnon ⟨"carl", "pw1", true, true⟩ bob "cab"
      ⟨200, "body", some ⟨some "OK", none⟩⟩ ⟨some "OK", none⟩ 5 none
      rfl rfl rfl (by decide) rfl rfl).1,
   (C9_remember_argument_differs cuAnon ⟨"carl", "pw1", true, true⟩ bob "cab"
      ⟨200, "body", some ⟨some "OK", none⟩⟩ ⟨some "OK", none⟩ 5 none
      rfl rfl rfl (by decide) rfl rfl).2.1,
   (C9_remember_argument_differs cuAnon ⟨"carl", "pw1", true, true⟩ bob "cab"
      ⟨200, "body", some ⟨some "OK", none⟩⟩ ⟨some "OK", none⟩ 5 none
      rfl rfl rfl (by decide) rfl rfl).2.2 "pw1" true⟩

/-- Claim C10: an authenticated current_user is redirected immediately by
login and register, and a non-anonymous current_user is redirected
immediately by forgot_password and reset_password; in all four cases the
effect trace is empty, so no user record is created or modified, no remote
call is made, and no token is issued or verified. -/
theorem C10_guards_redirect_without_effects (cu cu2 : CurrentUser)
    (formL : LoginForm) (localAuth : Option User × Bool) (url url2 : String)
    (resp resp2 : HttpResponse) (now : Nat) (nextArg : Option String)
    (fv : Bool) (u : User) (formF : ForgotPasswordForm)
    (formR : ResetPasswordForm) (findByEmail : String → Option User)
    (verify : User → String → VerifyResult)
    (h1 : cu.is_authenticated = true) (h2 : cu2.is_anonymous = false) :
    login cu formL localAuth url resp now nextArg
      = .ok (.redirect "user.profile") []
    ∧ register cu fv u url2 resp2 = .ok (.redirect "user.profile") []
    ∧ forgot_password cu2 formF findByEmail = .ok (.redirect "forum.index") []
    ∧ reset_password cu2 formR findByEmail verify
      = .ok (.redirect "forum.index") [] := by
  refine ⟨?_, ?_, ?_, ?_⟩
  · simp [login, h1]
  · simp [register, h1]
  · simp [forgot_password, h2]
  · simp [reset_password, h2]

theorem C10_witness :
    cuAuth.is_authenticated = true ∧ cuAuth.is_anonymous = false ∧
    (login cuAuth ⟨"x", "y", false, true⟩ (none, false) "cab" ⟨200, "b", none⟩ 0 none
        = .ok (.redirect "user.profile") []
     ∧ register cuAuth true bob "reg" ⟨200, "b", none⟩
        = .ok (.redirect "user.profile") []
     ∧ forgot_password cuAuth ⟨"a@b", true⟩ findBob
        = .ok (.redirect "forum.index") []
     ∧ reset_password cuAuth ⟨"a@b", "t", "p", true⟩ findBob verifyGood
        = .ok (.redirect "forum.index") []) :=
  ⟨rfl, rfl,
   C10_guards_redirect_without_effects cuAuth cuAuth ⟨"x", "y", false, true⟩
     (none, false) "cab" "reg" ⟨200, "b", none⟩ ⟨200, "b", none⟩ 0 none
     true bob ⟨"a@b", true⟩ ⟨"a@b", "t", "p", true⟩ findBob verifyGood rfl rfl⟩

end FlaskBB
